import Mathlib

/- Verification of the hybrid anemia-risk assessment core of
   `nuevo_proyecto_anemia` (Alerta-Anemia-MIDIS).

   The source is a React single-file application; its decision core consists
   of the pure functions `clasificarAnemiaClinica`, `predictRiskML`,
   `generarSugerencias`, the hybrid verdict computed inline in `handleSubmit`,
   and the record built by `registrarAlertaDB`.  These are embedded below:
   JavaScript numbers are modelled as rationals (ℚ), JavaScript strings as
   Lean strings (and, for the join/split serialisation, as lists of
   characters), and the Firestore `addDoc` insertion as appending to a list
   of records.  `Math.random() * 0.1 - 0.05` in `predictRiskML` is modelled
   by an explicit jitter parameter `r` ranging over [-1/20, 1/20]. -/

/-- Input record for the scorer and the suggestion engine: the fields of the
form state (`formData`) that the core functions actually read, plus the
derived `Clima` field.  Numeric form fields are rationals. -/
structure DataInput where
  Area : String
  Nivel_Educacion_Madre : String
  Ingreso_Familiar_Soles : ℚ
  Nro_Hijos : ℚ
  Suplemento_Hierro : String
  Edad_meses : ℚ
  Clima : String

/-- Result record of `clasificarAnemiaClinica` (source lines 77-93). -/
structure ClasificacionClinica where
  gravedad : String
  umbralAnemia : ℚ
  hbCorregida : ℚ
  correccionAlt : ℚ
deriving DecidableEq

/-- Embedding of `clasificarAnemiaClinica` (source lines 77-93): altitude
correction 0.3 * (altitud_m / 1000) is added to the measured hemoglobin and
the corrected value is compared against the thresholds 7.0, 10.0, 11.0 with
strict `<`.  The `edad_meses` argument is accepted but never read, exactly
as in the source. -/
def clasificarAnemiaClinica (hemoglobina edad_meses altitud_m : ℚ) : ClasificacionClinica :=
  let correccionAlt := 3/10 * (altitud_m / 1000)
  let hbCorregida := hemoglobina + correccionAlt
  let umbralAnemia : ℚ := 11
  let umbralModerada : ℚ := 10
  let umbralSevera : ℚ := 7
  let gravedad :=
    if hbCorregida < umbralSevera then "SEVERA"
    else if hbCorregida < umbralModerada then "MODERADA"
    else if hbCorregida < umbralAnemia then "LEVE"
    else "NO ANÉMICO"
  ⟨gravedad, umbralAnemia, hbCorregida, correccionAlt⟩

/-- Result record of `predictRiskML` (source lines 95-119). -/
structure ResultadoML where
  probRiesgo : ℚ
  resultadoML : String
deriving DecidableEq

/-- Embedding of `predictRiskML` (source lines 95-119).  The call
`Math.random() * 0.1 - 0.05` is made explicit as the parameter `r`; a run of
the source corresponds to some `r` with -1/20 ≤ r ≤ 1/20. -/
def predictRiskML (data : DataInput) (gravedad_anemia : String) (r : ℚ) : ResultadoML :=
  let probBase : ℚ := 1/10
  let probBase := if data.Area = "Rural" then probBase + 15/100 else probBase
  let probBase :=
    if data.Nivel_Educacion_Madre = "Sin Nivel" ∨ data.Nivel_Educacion_Madre = "Inicial" ∨
        data.Nivel_Educacion_Madre = "Primaria" then probBase + 2/10 else probBase
  let probBase := if data.Ingreso_Familiar_Soles < 1000 then probBase + 25/100 else probBase
  let probBase := if 4 ≤ data.Nro_Hijos then probBase + 1/10 else probBase
  let probBase := if data.Suplemento_Hierro = "No" then probBase + 15/100 else probBase
  let probBase :=
    if gravedad_anemia = "SEVERA" then 99/100
    else if gravedad_anemia = "MODERADA" then max probBase (75/100)
    else if gravedad_anemia = "LEVE" then max probBase (45/100)
    else probBase
  let probRiesgo := min (99/100) (probBase + r)
  let resultadoML :=
    if 7/10 ≤ probRiesgo then "ALTO RIESGO (Predicción ML)"
    else if 4/10 ≤ probRiesgo then "MEDIO RIESGO (Predicción ML)"
    else "BAJO RIESGO (Predicción ML)"
  ⟨probRiesgo, resultadoML⟩

/-- Clinical suggestion for tier SEVERA (source line 126). -/
def sugSevera : String :=
  "🚨🚨 Requerimiento Inmediato: Hospitalización y Transfusión de Sangre si la indicación clínica lo amerita. Contacto Urgente con UCI Pediátrica. | CRÍTICO | Atención Hospitalaria"

/-- Clinical suggestion for tier MODERADA (source line 128). -/
def sugModerada : String :=
  "🔴 Seguimiento Clínico Urgente: Dosis terapéutica de Hierro por 6 meses y reevaluación mensual de Hemoglobina. Consulta con Hematología. | CRÍTICO | Suplementación Reforzada"

/-- Clinical suggestion for tier LEVE (source line 130). -/
def sugLeve : String :=
  "⚠️ Suplementación Inmediata: Dosis profiláctica o terapéutica inicial de Hierro por 4 meses. Control en 30 días. | ALERTA | Suplementación"

/-- Clinical suggestion for the remaining tier (source line 132). -/
def sugNormal : String :=
  "✅ Vigilancia Activa: El valor corregido de Hb es óptimo. Continuar con chequeos regulares y prevención primaria. | Ok | Preventivo"

/-- Iron-supplement suggestion (source line 137). -/
def sugSuplemento : String :=
  "💊 Suplementación: Iniciar o asegurar la adherencia al suplemento de Hierro (gotas/jarabe) según la edad (MINSA). | Suplemento"

/-- Age-conditioned suggestion (source line 140). -/
def sugEdadCritica : String :=
  "👶 Edad Crítica: Reforzar la alimentación complementaria rica en hierro hemo (sangrecita, hígado, bazo) debido a la edad vulnerable (6 a 24 meses). | Dieta | Edad"

/-- Unconditional nutrition suggestion (source line 142). -/
def sugNutricion : String :=
  "🍲 Nutrición: Incluir alimentos fortificados y menús ricos en hierro y vitamina C (para absorción). Énfasis en proteínas de origen animal. | Dieta"

/-- Income-conditioned suggestion (source line 146). -/
def sugApoyoSocial : String :=
  "💰 Apoyo Social: Evaluar la elegibilidad para programas de apoyo económico (Juntos) o alimentario (Vaso de Leche, Qali Warma) si no está inscrito. | Social | Económico"

/-- Rural-area suggestion (source line 149). -/
def sugEducacionRural : String :=
  "📚 Educación: Sesiones educativas sobre preparación de alimentos ricos en hierro, higiene y desparasitación adaptadas al contexto rural. | Educación | Contextual"

/-- Maternal-education suggestion (source line 152). -/
def sugIntervencion : String :=
  "📚 Intervención: Materiales educativos con lenguaje simple y demostraciones prácticas de cocina/higiene. | Educación | Vulnerabilidad"

/-- Cold-climate suggestion (source line 157). -/
def sugClimaFrio : String :=
  "✨ Clima Frío: Reforzar la vigilancia de infecciones respiratorias agudas (IRAs), ya que el frío aumenta el gasto energético y el riesgo nutricional. | General | Contextual"

/-- The clinical-severity suggestion chosen by the if/else chain at source
lines 125-133: exactly one of the four texts is pushed, selected by the
gravity tier. -/
def sugClinica (gravedadAnemia : String) : String :=
  if gravedadAnemia = "SEVERA" then sugSevera
  else if gravedadAnemia = "MODERADA" then sugModerada
  else if gravedadAnemia = "LEVE" then sugLeve
  else sugNormal

/-- Embedding of `generarSugerencias` (source lines 121-163): conditional
`push` calls become conditional appends, and the final
`sugerencias.unshift(...)` becomes a cons of the hybrid-diagnosis header in
front of the accumulated list. -/
def generarSugerencias (data : DataInput) (resultadoFinal gravedadAnemia : String) : List String :=
  let sugerencias : List String := []
  let sugerencias := sugerencias ++ [sugClinica gravedadAnemia]
  let sugerencias :=
    if data.Suplemento_Hierro = "No" then sugerencias ++ [sugSuplemento] else sugerencias
  let sugerencias :=
    if data.Edad_meses < 24 then sugerencias ++ [sugEdadCritica] else sugerencias
  let sugerencias := sugerencias ++ [sugNutricion]
  let sugerencias :=
    if data.Ingreso_Familiar_Soles < 1000 then sugerencias ++ [sugApoyoSocial] else sugerencias
  let sugerencias :=
    if data.Area = "Rural" then sugerencias ++ [sugEducacionRural] else sugerencias
  let sugerencias :=
    if data.Nivel_Educacion_Madre = "Primaria" ∨ data.Nivel_Educacion_Madre = "Sin Nivel"
      then sugerencias ++ [sugIntervencion] else sugerencias
  let sugerencias :=
    if data.Clima = "FRÍO" then sugerencias ++ [sugClimaFrio] else sugerencias
  ("Diagnóstico Híbrido: " ++ resultadoFinal) :: sugerencias

/-- Verdict label prefixed to model predictions classed as high risk. -/
def etiquetaAlto : String := "ALTO RIESGO"

/-- Embedding of the hybrid verdict computed inline in `handleSubmit`
(source lines 390-397): a SEVERA or MODERADA clinical tier forces the
clinical-alert high verdict; otherwise an ML result starting with
"ALTO RIESGO" is relabelled; otherwise the ML label passes through. -/
def resolverHibrido (gravedadAnemia resultadoML : String) : String :=
  if gravedadAnemia = "SEVERA" ∨ gravedadAnemia = "MODERADA" then
    "ALTO RIESGO (Alerta Clínica - " ++ gravedadAnemia ++ ")"
  else if resultadoML.startsWith etiquetaAlto then
    "ALTO RIESGO (Predicción ML - Anemia " ++ gravedadAnemia ++ ")"
  else resultadoML

/-- The separator used by `alertaData.sugerencias.join(' | ')` (source line
285) and by the render-side `sug.split(' | ')` (source line 488), as a list
of characters. -/
def SEP : List Char := [' ', '|', ' ']

/-- Model of JavaScript `String.prototype.split(' | ')`, scanning left to
right for the leftmost occurrence of the three-character separator.  The
result is returned as (first segment, remaining segments) so that it is
never empty, mirroring the fact that `split` always returns at least one
element. -/
def splitSep : List Char → List Char × List (List Char)
  | ' ' :: '|' :: ' ' :: rest =>
      ([], (splitSep rest).1 :: (splitSep rest).2)
  | c :: rest =>
      (c :: (splitSep rest).1, (splitSep rest).2)
  | [] => ([], [])

/-- The segment list produced by splitting on the separator: JavaScript
`s.split(' | ')`. -/
def splitList (s : List Char) : List (List Char) :=
  (splitSep s).1 :: (splitSep s).2

/-- Model of JavaScript `Array.prototype.join(' | ')`. -/
def joinSep : List (List Char) → List Char
  | [] => []
  | [t] => t
  | t :: ts => t ++ SEP ++ joinSep ts

/-- The fields of the `registroData` object assembled in `handleSubmit`
(source lines 402-406) and consumed by `registrarAlertaDB`. -/
structure AlertaData where
  DNI : String
  Nombre_Apellido : String
  Hemoglobina_g_dL : ℚ
  Edad_meses : ℚ
  Region : String
  riesgo : String
  gravedad_anemia : String
  sugerencias : List String

/-- A persisted alert document: the `dataToInsert` object of
`registrarAlertaDB` (source lines 277-288).  The `Fecha Alerta` timestamp is
modelled as a natural number and the joined suggestion field as a character
list. -/
structure RegistroAlerta where
  DNI : String
  Nombre : String
  HbInicial : ℚ
  Riesgo : String
  Gravedad : String
  Region : String
  Estado : String
  Sugerencias : List Char
  FechaAlerta : ℕ
  Usuario_Registro : String

/-- The document built by `registrarAlertaDB` (source lines 277-288): note
the unconditional `Estado: 'REGISTRADO'` and the pipe-joined suggestions. -/
def dataToInsert (alertaData : AlertaData) (fecha : ℕ) (userId : String) : RegistroAlerta :=
  { DNI := alertaData.DNI
    Nombre := alertaData.Nombre_Apellido
    HbInicial := alertaData.Hemoglobina_g_dL
    Riesgo := alertaData.riesgo
    Gravedad := alertaData.gravedad_anemia
    Region := alertaData.Region
    Estado := "REGISTRADO"
    Sugerencias := joinSep (alertaData.sugerencias.map String.data)
    FechaAlerta := fecha
    Usuario_Registro := userId }

/-- Embedding of the persistence effect of `registrarAlertaDB` (source lines
274-299): Firestore `addDoc` unconditionally creates a fresh document, so
insertion is modelled as appending the built record to the store. -/
def registrarAlertaDB (db : List RegistroAlerta) (alertaData : AlertaData)
    (fecha : ℕ) (userId : String) : List RegistroAlerta :=
  db ++ [dataToInsert alertaData fecha userId]

/-- Number of stored records carrying a given (DNI, date) natural key. -/
def countByKey (db : List RegistroAlerta) (dni : String) (fecha : ℕ) : ℕ :=
  (db.filter (fun reg => reg.DNI == dni && reg.FechaAlerta == fecha)).length

/-- Sample input with the risk factors rural residence, primary-level
maternal education and sub-floor income present, and the others absent: its
weighted base score is exactly 1/10 + 15/100 + 2/10 + 25/100 = 7/10. -/
def d4 : DataInput :=
  { Area := "Rural", Nivel_Educacion_Madre := "Primaria", Ingreso_Familiar_Soles := 800,
    Nro_Hijos := 2, Suplemento_Hierro := "Sí", Edad_meses := 36, Clima := "CÁLIDO/SECO" }

/-- Sample input mirroring the form defaults of the source (urban area,
secondary maternal education, income 1800, two children, no supplement,
36 months, warm climate). -/
def dataA : DataInput :=
  { Area := "Urbana", Nivel_Educacion_Madre := "Secundaria", Ingreso_Familiar_Soles := 1800,
    Nro_Hijos := 2, Suplemento_Hierro := "No", Edad_meses := 36, Clima := "CÁLIDO/SECO" }

/-- Sample input triggering none of the optional suggestion branches, so the
generated list is as short as possible (header, clinical text, nutrition). -/
def dataC : DataInput :=
  { Area := "Urbana", Nivel_Educacion_Madre := "Secundaria", Ingreso_Familiar_Soles := 1800,
    Nro_Hijos := 2, Suplemento_Hierro := "Sí", Edad_meses := 36, Clima := "CÁLIDO/SECO" }

/-- Sample assessment snapshot for a SEVERA clinical tier, as handed to
`registrarAlertaDB` by `handleSubmit`. -/
def aSevera : AlertaData :=
  { DNI := "12345678", Nombre_Apellido := "Paciente Prueba", Hemoglobina_g_dL := 5,
    Edad_meses := 36, Region := "PUNO (Sierra Alta)",
    riesgo := "ALTO RIESGO (Alerta Clínica - SEVERA)", gravedad_anemia := "SEVERA",
    sugerencias := [] }

/-- A conditional append to a list with head `c` keeps head `c`. -/
theorem cons_head_ite (b : Prop) [Decidable b] (c : String) (t : List String) (x : String) :
    ∃ u, (if b then (c :: t) ++ [x] else c :: t) = c :: u := by
  split
  · exact ⟨t ++ [x], rfl⟩
  · exact ⟨t, rfl⟩

/-- Unfolding of `joinSep` on a list of at least two segments. -/
theorem joinSep_cons_cons (a b : List Char) (l : List (List Char)) :
    joinSep (a :: b :: l) = a ++ SEP ++ joinSep (b :: l) := rfl

/-- Re-joining the segments produced by splitting reproduces the original
string: the string-level section of the JavaScript join/split pair. -/
theorem joinSep_splitSep (s : List Char) :
    joinSep ((splitSep s).1 :: (splitSep s).2) = s := by
  induction s using splitSep.induct with
  | case1 rest ih =>
    simp only [splitSep, joinSep_cons_cons, List.nil_append]
    rw [ih]
    rfl
  | case2 c rest h ih =>
    rw [splitSep.eq_2 c rest h]
    rcases hr : (splitSep rest).2 with _ | ⟨u, us⟩
    · rw [hr] at ih
      simp only [joinSep] at ih ⊢
      rw [ih]
    · rw [hr] at ih
      rw [joinSep_cons_cons, List.cons_append, List.cons_append]
      rw [joinSep_cons_cons] at ih
      rw [ih]
  | case3 => rfl

/-- With a SEVERA gravity tier the scorer collapses to the clamped
probability 0.99 + jitter, independently of every socioeconomic factor. -/
theorem predictRiskML_severa (data : DataInput) (r : ℚ) :
    predictRiskML data "SEVERA" r =
      ⟨min (99/100) (99/100 + r),
        if 7/10 ≤ min (99/100) (99/100 + r) then "ALTO RIESGO (Predicción ML)"
        else if 4/10 ≤ min (99/100) (99/100 + r) then "MEDIO RIESGO (Predicción ML)"
        else "BAJO RIESGO (Predicción ML)"⟩ := rfl

/-- C1: hybrid precedence rule 1 — whenever the clinical gravity tier is
SEVERA or MODERADA, the resolver returns the high verdict carrying the
clinical-alert qualifier that names the clinical tier, for every possible ML
result string (so in particular for all three ML tiers). -/
theorem C1_precedencia_clinica (g ml : String) (h : g = "SEVERA" ∨ g = "MODERADA") :
    resolverHibrido g ml = "ALTO RIESGO (Alerta Clínica - " ++ g ++ ")" := by
  unfold resolverHibrido
  rw [if_pos h]

/-- C1 witness: concrete instance at tier SEVERA and a low-risk ML label. -/
theorem C1_precedencia_clinica_witness :
    ("SEVERA" = "SEVERA" ∨ "SEVERA" = "MODERADA") ∧
      resolverHibrido "SEVERA" "BAJO RIESGO (Predicción ML)" =
        "ALTO RIESGO (Alerta Clínica - SEVERA)" := by
  refine ⟨Or.inl rfl, ?_⟩
  rw [C1_precedencia_clinica _ _ (Or.inl rfl)]
  decide

/-- C2 counterexample: at a corrected hemoglobin of exactly 7.0 g/dL the
classifier does not assign SEVERA (it assigns MODERADA), refuting the claim
that exact boundary values fall into the more severe bucket. -/
theorem C2_frontera_counterexample :
    (clasificarAnemiaClinica 7 36 0).hbCorregida = 7 ∧
      (clasificarAnemiaClinica 7 36 0).gravedad ≠ "SEVERA" := by
  constructor
  · simp only [clasificarAnemiaClinica]; norm_num
  · simp only [clasificarAnemiaClinica]; norm_num; decide

/-- C2 (amended): tier-boundary ties go to the less severe bucket — for
every age and every measured hemoglobin/altitude, a corrected hemoglobin of
exactly 7.0 is classified MODERADA, exactly 10.0 LEVE and exactly 11.0
NO ANÉMICO, because the source compares with strict `<` against each lower
threshold. -/
theorem C2_frontera_menos_severa (hb edad alt : ℚ) :
    ((clasificarAnemiaClinica hb edad alt).hbCorregida = 7 →
      (clasificarAnemiaClinica hb edad alt).gravedad = "MODERADA") ∧
    ((clasificarAnemiaClinica hb edad alt).hbCorregida = 10 →
      (clasificarAnemiaClinica hb edad alt).gravedad = "LEVE") ∧
    ((clasificarAnemiaClinica hb edad alt).hbCorregida = 11 →
      (clasificarAnemiaClinica hb edad alt).gravedad = "NO ANÉMICO") := by
  refine ⟨?_, ?_, ?_⟩ <;> intro h <;>
    simp only [clasificarAnemiaClinica] at h ⊢ <;> rw [h] <;> norm_num

/-- C2 witness: the three boundary values at altitude 0 and age 36. -/
theorem C2_frontera_menos_severa_witness :
    (clasificarAnemiaClinica 7 36 0).hbCorregida = 7 ∧
    (clasificarAnemiaClinica 7 36 0).gravedad = "MODERADA" ∧
    (clasificarAnemiaClinica 10 36 0).hbCorregida = 10 ∧
    (clasificarAnemiaClinica 10 36 0).gravedad = "LEVE" ∧
    (clasificarAnemiaClinica 11 36 0).hbCorregida = 11 ∧
    (clasificarAnemiaClinica 11 36 0).gravedad = "NO ANÉMICO" := by
  have h7 : (clasificarAnemiaClinica 7 36 0).hbCorregida = 7 := by
    simp only [clasificarAnemiaClinica]; norm_num
  have h10 : (clasificarAnemiaClinica 10 36 0).hbCorregida = 10 := by
    simp only [clasificarAnemiaClinica]; norm_num
  have h11 : (clasificarAnemiaClinica 11 36 0).hbCorregida = 11 := by
    simp only [clasificarAnemiaClinica]; norm_num
  exact ⟨h7, (C2_frontera_menos_severa 7 36 0).1 h7, h10,
    (C2_frontera_menos_severa 10 36 0).2.1 h10, h11,
    (C2_frontera_menos_severa 11 36 0).2.2 h11⟩

set_option maxRecDepth 20000 in
/-- C3 counterexample: for the shortest generated suggestion list, joining
with the three-character separator and splitting again does not reproduce
the list — the clinical and nutrition texts embed the separator, so the
split is strictly finer. -/
theorem C3_roundtrip_counterexample :
    splitList (joinSep
        ((generarSugerencias dataC "BAJO RIESGO (Predicción ML)" "NO ANÉMICO").map String.data))
      ≠ (generarSugerencias dataC "BAJO RIESGO (Predicción ML)" "NO ANÉMICO").map String.data := by
  have hlist : generarSugerencias dataC "BAJO RIESGO (Predicción ML)" "NO ANÉMICO" =
      [("Diagnóstico Híbrido: " ++ "BAJO RIESGO (Predicción ML)"), sugNormal, sugNutricion] := by
    simp [generarSugerencias, sugClinica, dataC]
    norm_num
  rw [hlist]
  decide

/-- C3 (amended): the round trip holds one level down, at the level of the
stored string — for every generated suggestion list, splitting the joined
string and re-joining the segments reproduces the joined string exactly.
The original list itself is not recovered because its elements embed the
separator. -/
theorem C3_roundtrip_cadena (data : DataInput) (resultadoFinal gravedadAnemia : String) :
    joinSep (splitList
        (joinSep ((generarSugerencias data resultadoFinal gravedadAnemia).map String.data)))
      = joinSep ((generarSugerencias data resultadoFinal gravedadAnemia).map String.data) := by
  unfold splitList
  exact joinSep_splitSep _

/-- C4 counterexample: the scorer is not deterministic across invocations —
two admissible draws of the uniform jitter (−0.05 and +0.05) applied to the
same input and the same gravity tier yield different probabilities and even
different tier labels (MEDIO vs ALTO). -/
theorem C4_jitter_counterexample :
    (predictRiskML d4 "NO ANÉMICO" (-(1/20))).resultadoML = "MEDIO RIESGO (Predicción ML)" ∧
    (predictRiskML d4 "NO ANÉMICO" (1/20)).resultadoML = "ALTO RIESGO (Predicción ML)" := by
  constructor <;>
    · simp [predictRiskML, d4]
      norm_num [min_def]

/-- C4 (amended): the scorer draws a uniform jitter in [−0.05, 0.05], so it
is deterministic only once the draw is fixed; modelling the draw as the
explicit argument `r`, the output is a function of (input, gravity, draw).
For a SEVERA gravity tier the label is invariant under every admissible
draw: the probability is min(0.99, 0.99 + r) and the tier is always ALTO. -/
theorem C4_severa_invariante (data : DataInput) (r : ℚ)
    (h1 : -(1/20) ≤ r) (h2 : r ≤ 1/20) :
    (predictRiskML data "SEVERA" r).probRiesgo = min (99/100) (99/100 + r) ∧
    (predictRiskML data "SEVERA" r).resultadoML = "ALTO RIESGO (Predicción ML)" := by
  have hle : (7/10 : ℚ) ≤ min (99/100) (99/100 + r) := le_min (by norm_num) (by linarith)
  rw [predictRiskML_severa]
  exact ⟨rfl, if_pos hle⟩

/-- C4 witness: concrete instance at the form-default input and the maximal
admissible draw. -/
theorem C4_severa_invariante_witness :
    (-(1/20) : ℚ) ≤ 1/20 ∧ (1/20 : ℚ) ≤ 1/20 ∧
      ((predictRiskML dataA "SEVERA" (1/20)).probRiesgo = min (99/100) (99/100 + 1/20) ∧
        (predictRiskML dataA "SEVERA" (1/20)).resultadoML = "ALTO RIESGO (Predicción ML)") :=
  ⟨by norm_num, by norm_num, C4_severa_invariante dataA (1/20) (by norm_num) (by norm_num)⟩

/-- C5 counterexample: for an age far outside the band [6,59] the classifier
returns the ordinary tier MODERADA — there is no OUT_OF_RANGE tier — and its
whole result coincides with that of an in-band age. -/
theorem C5_fuera_de_rango_counterexample :
    (clasificarAnemiaClinica 8 100 0).gravedad = "MODERADA" ∧
      clasificarAnemiaClinica 8 100 0 = clasificarAnemiaClinica 8 36 0 := by
  constructor
  · simp only [clasificarAnemiaClinica]; norm_num
  · rfl

/-- C5 (amended): the classifier has no OUT_OF_RANGE tier at all — for every
age outside [6,59] it still returns one of the four ordinary tiers, because
the age argument is never consulted; consequently the resolver needs no
special handling for unsupported ages. -/
theorem C5_sin_fuera_de_rango (hb edad alt : ℚ) (h : edad < 6 ∨ 59 < edad) :
    (clasificarAnemiaClinica hb edad alt).gravedad = "SEVERA" ∨
    (clasificarAnemiaClinica hb edad alt).gravedad = "MODERADA" ∨
    (clasificarAnemiaClinica hb edad alt).gravedad = "LEVE" ∨
    (clasificarAnemiaClinica hb edad alt).gravedad = "NO ANÉMICO" := by
  simp only [clasificarAnemiaClinica]
  split
  · exact Or.inl rfl
  · split
    · exact Or.inr (Or.inl rfl)
    · split
      · exact Or.inr (Or.inr (Or.inl rfl))
      · exact Or.inr (Or.inr (Or.inr rfl))

/-- C5 witness: concrete out-of-band age 100 months. -/
theorem C5_sin_fuera_de_rango_witness :
    ((100 : ℚ) < 6 ∨ (59 : ℚ) < 100) ∧
      ((clasificarAnemiaClinica 8 100 0).gravedad = "SEVERA" ∨
       (clasificarAnemiaClinica 8 100 0).gravedad = "MODERADA" ∨
       (clasificarAnemiaClinica 8 100 0).gravedad = "LEVE" ∨
       (clasificarAnemiaClinica 8 100 0).gravedad = "NO ANÉMICO") :=
  ⟨Or.inr (by norm_num), C5_sin_fuera_de_rango 8 100 0 (Or.inr (by norm_num))⟩

/-- C6 counterexample: in the scenario hemoglobin 6.5, age 36, altitude 150
the clinical tier is SEVERA, yet the first element of the generated list is
the hybrid-diagnosis header added by `unshift`, not the emergency-referral
clinical suggestion. -/
theorem C6_encabezado_counterexample :
    (clasificarAnemiaClinica (13/2) 36 150).gravedad = "SEVERA" ∧
      (generarSugerencias dataA
          (resolverHibrido (clasificarAnemiaClinica (13/2) 36 150).gravedad
            "ALTO RIESGO (Predicción ML)")
          (clasificarAnemiaClinica (13/2) 36 150).gravedad).head? ≠ some sugSevera := by
  have hg : (clasificarAnemiaClinica (13/2) 36 150).gravedad = "SEVERA" := by
    simp only [clasificarAnemiaClinica]; norm_num
  refine ⟨hg, ?_⟩
  rw [hg]
  decide

/-- C6 (amended): for every input, verdict and gravity tier, the generated
list starts with the hybrid-diagnosis header and its second element is the
mandatory clinical-severity suggestion selected by the clinical tier
(SEVERA → emergency referral, MODERADA → urgent supplementation, LEVE →
preventive supplementation, otherwise maintenance). -/
theorem C6_encabezado_primero (data : DataInput) (resultadoFinal gravedadAnemia : String) :
    ∃ resto, generarSugerencias data resultadoFinal gravedadAnemia =
      ("Diagnóstico Híbrido: " ++ resultadoFinal) :: sugClinica gravedadAnemia :: resto := by
  simp only [generarSugerencias, List.nil_append]
  obtain ⟨u1, h1⟩ := cons_head_ite (data.Suplemento_Hierro = "No")
    (sugClinica gravedadAnemia) [] sugSuplemento
  rw [h1]
  obtain ⟨u2, h2⟩ := cons_head_ite (data.Edad_meses < 24)
    (sugClinica gravedadAnemia) u1 sugEdadCritica
  rw [h2]
  rw [List.cons_append]
  obtain ⟨u3, h3⟩ := cons_head_ite (data.Ingreso_Familiar_Soles < 1000)
    (sugClinica gravedadAnemia) (u2 ++ [sugNutricion]) sugApoyoSocial
  rw [h3]
  obtain ⟨u4, h4⟩ := cons_head_ite (data.Area = "Rural")
    (sugClinica gravedadAnemia) u3 sugEducacionRural
  rw [h4]
  obtain ⟨u5, h5⟩ := cons_head_ite
    (data.Nivel_Educacion_Madre = "Primaria" ∨ data.Nivel_Educacion_Madre = "Sin Nivel")
    (sugClinica gravedadAnemia) u4 sugIntervencion
  rw [h5]
  obtain ⟨u6, h6⟩ := cons_head_ite (data.Clima = "FRÍO")
    (sugClinica gravedadAnemia) u5 sugClimaFrio
  rw [h6]
  exact ⟨u6, rfl⟩

/-- C7 counterexample: even for a SEVERA-tier assessment the created record
carries status REGISTRADO, not the pending-clinical state the claim
predicts. -/
theorem C7_estado_counterexample :
    aSevera.gravedad_anemia = "SEVERA" ∧
      (dataToInsert aSevera 0 "usuario").Estado ≠ "PENDIENTE (CLÍNICO URGENTE)" :=
  ⟨rfl, by decide⟩

/-- C7 (amended): the initial status of a persisted alert is the constant
REGISTRADO for every verdict and clinical tier; the pending states are only
reachable later through operator-driven status updates. -/
theorem C7_estado_inicial_constante (a : AlertaData) (fecha : ℕ) (userId : String) :
    (dataToInsert a fecha userId).Estado = "REGISTRADO" := rfl

/-- C8 counterexample: starting from an empty store, two submissions with
the same (DNI, date) key leave two records with that key, not one. -/
theorem C8_duplicado_counterexample :
    countByKey (registrarAlertaDB (registrarAlertaDB [] aSevera 0 "usuario") aSevera 0 "usuario")
        aSevera.DNI 0 ≠ 1 := by decide

/-- C8 (amended): insertion always appends a fresh document (`addDoc`), so
two submissions with the same (DNI, date) key increase the number of stored
records with that key by exactly two — duplicate submissions are not
idempotent. -/
theorem C8_insercion_duplica (db : List RegistroAlerta) (a : AlertaData)
    (fecha : ℕ) (userId : String) :
    countByKey (registrarAlertaDB (registrarAlertaDB db a fecha userId) a fecha userId)
        a.DNI fecha = countByKey db a.DNI fecha + 2 := by
  simp [countByKey, registrarAlertaDB, dataToInsert, List.filter_append]

/-- C9: the clinical classifier is independent of age — the `edad_meses`
argument never influences the returned assessment, so any two ages give
identical gravity tier, threshold, corrected hemoglobin and correction. -/
theorem C9_independiente_de_edad (hb alt edad1 edad2 : ℚ) :
    clasificarAnemiaClinica hb edad1 alt = clasificarAnemiaClinica hb edad2 alt := rfl

/-- C10: the altitude correction is additive and monotone — it equals
0.3 · (altitude / 1000), is non-negative for non-negative altitude, never
lowers the measured hemoglobin (strictly raises it for positive altitude),
and is non-decreasing in altitude. -/
theorem C10_correccion_aditiva_monotona (hb edad alt1 alt2 : ℚ)
    (h0 : 0 ≤ alt1) (h12 : alt1 ≤ alt2) :
    (clasificarAnemiaClinica hb edad alt1).correccionAlt = 3/10 * (alt1 / 1000) ∧
    (clasificarAnemiaClinica hb edad alt1).hbCorregida = hb + 3/10 * (alt1 / 1000) ∧
    0 ≤ (clasificarAnemiaClinica hb edad alt1).correccionAlt ∧
    hb ≤ (clasificarAnemiaClinica hb edad alt1).hbCorregida ∧
    (0 < alt1 → hb < (clasificarAnemiaClinica hb edad alt1).hbCorregida) ∧
    (clasificarAnemiaClinica hb edad alt1).correccionAlt ≤
      (clasificarAnemiaClinica hb edad alt2).correccionAlt := by
  refine ⟨?_, ?_, ?_, ?_, fun h => ?_, ?_⟩ <;>
    simp only [clasificarAnemiaClinica] <;> linarith

/-- C10 witness: altitudes 150 m and 1000 m at hemoglobin 10 g/dL. -/
theorem C10_correccion_witness :
    (0 : ℚ) ≤ 150 ∧ (150 : ℚ) ≤ 1000 ∧
      ((clasificarAnemiaClinica 10 36 150).correccionAlt = 3/10 * (150 / 1000) ∧
       (clasificarAnemiaClinica 10 36 150).hbCorregida = 10 + 3/10 * (150 / 1000) ∧
       0 ≤ (clasificarAnemiaClinica 10 36 150).correccionAlt ∧
       (10 : ℚ) ≤ (clasificarAnemiaClinica 10 36 150).hbCorregida ∧
       ((0 : ℚ) < 150 → (10 : ℚ) < (clasificarAnemiaClinica 10 36 150).hbCorregida) ∧
       (clasificarAnemiaClinica 10 36 150).correccionAlt ≤
         (clasificarAnemiaClinica 10 36 1000).correccionAlt) :=
  ⟨by norm_num, by norm_num,
    C10_correccion_aditiva_monotona 10 36 150 1000 (by norm_num) (by norm_num)⟩
